import Mathlib

/-!
Shallow embedding of `chatbot_integration/chatbot_service.py`.

Python values that can appear in a raw product record are modelled by `PyVal`
(rationals stand in for Python floats; the claims under study only involve
exactly representable values).  A raw product record (a Python dict) is a
key-value list.  The remote inference client is external to the repository, so
the remote call is a parameter of the model-invocation wrapper: a function from
the assembled message list and the attempt index to either an exception
(modelled as its message string) or a raw completion.  Sleeping is modelled by
recording the requested sleep durations in order.
-/

namespace Chatbot

/-- Python value in a raw product record: string, int, float (as an exact
rational) or None. -/
inductive PyVal : Type where
  | str : String → PyVal
  | int : Int → PyVal
  | float : ℚ → PyVal
  | none : PyVal
deriving DecidableEq

/-- Raw product record: a Python dict as an association list. -/
abbrev RawProduct := List (String × PyVal)

/-- Python truthiness of a `PyVal` (empty string, zero and None are falsy). -/
def pyTruthy : PyVal → Bool
  | PyVal.str s => decide (s ≠ "")
  | PyVal.int n => decide (n ≠ 0)
  | PyVal.float q => decide (q ≠ 0)
  | PyVal.none => false

/-- Python `a or b` restricted to `PyVal` operands. -/
def pyOr (a b : PyVal) : PyVal := if pyTruthy a then a else b

/-- Python `d.get(k, default)` on a raw record. -/
def pyGet (p : RawProduct) (k : String) (d : PyVal) : PyVal :=
  match p.lookup k with
  | some v => v
  | Option.none => d

/-- Digits of a char list read as a natural number (caller checks digitness). -/
def natOfDigits (cs : List Char) : Nat :=
  cs.foldl (fun n c => n * 10 + (c.toNat - 48)) 0

/-- True when the char list is non-empty and all decimal digits. -/
def allDigits (cs : List Char) : Bool :=
  !cs.isEmpty && cs.all Char.isDigit

/-- Unsigned part of Python `float(str)`: decimal digits with an optional
single point.  Exotic forms (exponents, infinities, whitespace) are not
modelled; no claim depends on them. -/
def parseUnsignedFloat (cs : List Char) : Option ℚ :=
  match cs.span (fun c => c != '.') with
  | (ip, []) => if allDigits ip then some ((natOfDigits ip : ℚ)) else Option.none
  | (ip, _ :: fp) =>
    if fp.any (fun c => c == '.') then Option.none
    else if ip.isEmpty && fp.isEmpty then Option.none
    else if ip.all Char.isDigit && fp.all Char.isDigit then
      some ((natOfDigits ip : ℚ) + (natOfDigits fp : ℚ) / ((10 : ℚ) ^ fp.length))
    else Option.none

/-- Python `float(str)` with an optional sign. -/
def parsePyFloat (s : String) : Option ℚ :=
  match s.data with
  | '-' :: rest => (parseUnsignedFloat rest).map (fun q => -q)
  | '+' :: rest => parseUnsignedFloat rest
  | cs => parseUnsignedFloat cs

/-- Python `int(str)` with an optional sign (plain decimal digits only). -/
def parsePyInt (s : String) : Option Int :=
  match s.data with
  | '-' :: rest => if allDigits rest then some (-(natOfDigits rest : Int)) else Option.none
  | '+' :: rest => if allDigits rest then some ((natOfDigits rest : Int)) else Option.none
  | cs => if allDigits cs then some ((natOfDigits cs : Int)) else Option.none

/-- Python `float(v)`: succeeds on numbers and parsable strings, raises
(`Except.error`) on None and unparsable strings. -/
def pyFloat : PyVal → Except Unit ℚ
  | PyVal.int n => Except.ok ((n : ℚ))
  | PyVal.float q => Except.ok q
  | PyVal.str s =>
    match parsePyFloat s with
    | some q => Except.ok q
    | Option.none => Except.error ()
  | PyVal.none => Except.error ()

/-- Truncation of a rational toward zero, as Python `int(float)` does. -/
def ratTrunc (q : ℚ) : Int := if 0 ≤ q then q.floor else -((-q).floor)

/-- Python `int(v)`: succeeds on ints, floats (truncating) and integer-syntax
strings, raises on None and other strings. -/
def pyInt : PyVal → Except Unit Int
  | PyVal.int n => Except.ok n
  | PyVal.float q => Except.ok (ratTrunc q)
  | PyVal.str s =>
    match parsePyInt s with
    | some n => Except.ok n
    | Option.none => Except.error ()
  | PyVal.none => Except.error ()

/-- Rendering of a float by Python `str`; only reachable when a product name or
description holds a float, which no claim exercises, so a simple exact
rendering of the rational is used. -/
def pyStrFloat (q : ℚ) : String :=
  if q.den = 1 then toString q.num ++ ".0"
  else toString q.num ++ "/" ++ toString q.den

/-- Python `str(v)` for the modelled values; it never raises. -/
def pyStr : PyVal → String
  | PyVal.str s => s
  | PyVal.int n => toString n
  | PyVal.float q => pyStrFloat q
  | PyVal.none => "None"

/-- Sanitized product entry as built by `_sanitize_products`. -/
structure ProductSummary where
  name : String
  description : String
  price : ℚ
  stock : Int
deriving DecidableEq

/-- Limit constant `MAX_HISTORY` of the service. -/
def MAX_HISTORY : Nat := 12

/-- Limit constant `PRODUCT_LIMIT` of the service. -/
def PRODUCT_LIMIT : Nat := 30

/-- Coercion of the price field of one raw record:
`float(p.get('price', 0) or 0)`. -/
def coercePrice (p : RawProduct) : Except Unit ℚ :=
  pyFloat (pyOr (pyGet p "price" (PyVal.int 0)) (PyVal.int 0))

/-- Coercion of the stock field of one raw record:
`int(p.get('stock', 0) or 0)`. -/
def coerceStock (p : RawProduct) : Except Unit Int :=
  pyInt (pyOr (pyGet p "stock" (PyVal.int 0)) (PyVal.int 0))

/-- Sanitization of a single raw record, as one loop iteration of
`_sanitize_products`: the four coercions inside the `try` block; if any raises,
the record degrades to the all-defaults placeholder. -/
def sanitizeOne (p : RawProduct) : ProductSummary :=
  match coercePrice p, coerceStock p with
  | Except.ok price, Except.ok stock =>
    { name := pyStr (pyGet p "name" (PyVal.str "N/A")),
      description := pyStr (pyOr (pyGet p "description" (PyVal.str "")) (PyVal.str "")),
      price := price, stock := stock }
  | _, _ => { name := "N/A", description := "", price := 0, stock := 0 }

/-- Embedding of `_sanitize_products`: empty or absent input gives `[]`,
otherwise the first `PRODUCT_LIMIT` records are sanitized one by one. -/
def _sanitize_products (products : Option (List RawProduct)) : List ProductSummary :=
  match products with
  | Option.none => []
  | some ps =>
    if ps.isEmpty then []
    else (ps.take PRODUCT_LIMIT).map sanitizeOne

/-- Store keyword vocabulary `STORE_KEYWORDS` of the service. -/
def STORE_KEYWORDS : List String :=
  ["product", "price", "order", "purchase", "cart", "shipping", "return", "refund",
   "stock", "availability", "checkout", "payment", "invoice", "sku", "item", "buy",
   "size", "color", "brand", "search", "recommend", "recommendation", "category",
   "delivery", "warranty", "tracking", "billing", "catalog"]

/-- Lowercasing as Python `str.lower` for the ASCII texts under study. -/
def pyLower (s : String) : String := String.mk (s.data.map Char.toLower)

/-- True when the first list is a prefix of the second (char comparison). -/
def matchAt : List Char → List Char → Bool
  | [], _ => true
  | _ :: _, [] => false
  | a :: as, b :: bs => a == b && matchAt as bs

/-- True when the first list occurs contiguously somewhere in the second. -/
def scanText (pat : List Char) : List Char → Bool
  | [] => pat.isEmpty
  | c :: rest => matchAt pat (c :: rest) || scanText pat rest

/-- Literal text the compiled pattern demands around a keyword.  The source
builds the pattern from the raw string `r"\\b(...)\\b"`, whose doubled
backslash makes the regex match a literal backslash followed by the letter b,
not a word boundary. -/
def keywordPattern (k : String) : String := "\x5cb" ++ k ++ "\x5cb"

/-- Embedding of `_is_store_related`: falsy text gives false; otherwise the
compiled keyword pattern is searched in the lowercased text.  Because of the
doubled backslash in the source pattern, the search succeeds exactly when the
text contains a literal backslash-b delimited keyword. -/
def _is_store_related (text : Option String) : Bool :=
  match text with
  | Option.none => false
  | some t =>
    if t = "" then false
    else
      let tl := (pyLower t).data
      STORE_KEYWORDS.any (fun k => scanText (keywordPattern k).data tl)

/-- Redirect text `REDIRECT_MESSAGE` of the service. -/
def REDIRECT_MESSAGE : String :=
  "I\x27m sorry, I can only help with questions related to this shop and its products. Please ask about products, availability, prices, orders, shipping, returns, or similar shop topics."

/-- System instruction string assembled in `__init__`. -/
def system_instruction : String :=
  "You are a professional e-shop assistant. Your ONLY purpose is to help customers with:\n- Product information and search\n- Answering questions about available products\n- Recommendations based on customer needs\n- Help with orders, purchasing, shipping, returns, and billing\n\nSTRICT RULES:\n- ONLY answer questions that are directly related to this e-shop and its products.\n- If a user asks anything outside the shop (personal advice, general knowledge, politics, etc.),\n  respond ONLY with a brief refusal and redirect them back to shop topics.\n- Do NOT provide jokes, opinions unrelated to products, or external factual summaries.\n- When refusing, use a short, polite redirection such as: \x27I\x27m sorry, I can only help with questions related to this shop and its products...\x27\n"

/-- Chat message dict with role and content. -/
structure ChatMessage where
  role : String
  content : String
deriving DecidableEq

/-- Rendering of the price with two decimals, for `\x7bprice:.2f\x7d`.
Rounding of a half is commercial rounding here; no claim depends on the tie
behaviour of the underlying binary float formatting. -/
def formatPrice (q : ℚ) : String :=
  let cents : Int := (q * 100 + 1 / 2).floor
  let sign := if cents < 0 then "-" else ""
  let a := cents.natAbs
  sign ++ toString (a / 100) ++ "." ++ (if a % 100 < 10 then "0" else "") ++ toString (a % 100)

/-- Rendering of one product line of the system-message product block. -/
def renderProductLine (p : ProductSummary) : String :=
  "- " ++ p.name ++ ": " ++ p.description ++ " (Price: €" ++ formatPrice p.price ++ ", Stock: " ++ toString p.stock ++ ")\n"

/-- System-message construction inside `_build_messages`: the instruction,
extended with a counted product block when the sanitized list is non-empty. -/
def build_system_message (products : Option (List RawProduct)) : String :=
  if (_sanitize_products products).isEmpty then system_instruction
  else
    system_instruction
      ++ ("\n\nAvailable products (first " ++ toString (_sanitize_products products).length ++ "):\n")
      ++ String.join ((_sanitize_products products).map renderProductLine)

/-- Embedding of `_build_messages`: system message, history trimmed to the
last `MAX_HISTORY` entries, then the user message as a user-role entry. -/
def _build_messages (user_message : String) (chat_history : Option (List ChatMessage))
    (products : Option (List RawProduct)) : List ChatMessage :=
  let hist := chat_history.getD []
  let history := hist.drop (hist.length - MAX_HISTORY)
  { role := "system", content := build_system_message products }
    :: (history ++ [{ role := "user", content := user_message }])

/-- Raw completion shape the handler inspects: either no usable choices (a
falsy response, or a missing or falsy choices attribute) or a list of
candidate texts. -/
inductive RawCompletion : Type where
  | noChoices : RawCompletion
  | withChoices : List String → RawCompletion
deriving DecidableEq

/-- Trace of one run of the wrapper produced by `_retry`: the final outcome,
the sleep durations requested in order, and how many times the wrapped
function was invoked. -/
structure RetryTrace (α : Type) where
  result : Except String α
  sleeps : List ℚ
  attempts : Nat

/-- Embedding of the loop in `_retry`: attempts are numbered from zero; each
failure logs, sleeps `delay * (attempt + 1)` and continues; after the last
failure the last exception is re-raised. -/
def retryRun {α : Type} (f : Nat → Except String α) (delay : ℚ) : Nat → Nat → RetryTrace α
  | attempt, 0 =>
    match f attempt with
    | Except.ok v => { result := Except.ok v, sleeps := [], attempts := 1 }
    | Except.error e =>
      { result := Except.error e,
        sleeps := [delay * ((attempt + 1 : Nat) : ℚ)], attempts := 1 }
  | attempt, remaining + 1 =>
    match f attempt with
    | Except.ok v => { result := Except.ok v, sleeps := [], attempts := 1 }
    | Except.error _ =>
      let rest := retryRun f delay (attempt + 1) remaining
      { result := rest.result,
        sleeps := delay * ((attempt + 1 : Nat) : ℚ) :: rest.sleeps,
        attempts := rest.attempts + 1 }

/-- Retry count of the `_retry` decoration on `_call_model`. -/
def RETRIES : Nat := 2

/-- Base delay of the `_retry` decoration on `_call_model` (0.7 seconds). -/
def RETRY_DELAY : ℚ := 7 / 10

/-- Embedding of `_call_model` under its `_retry` decoration.  The client
handle is `Option.none` when the API credential was missing; the external
remote call is the parameter `remote`, indexed by the messages sent and the
attempt number.  Each attempt first checks the client and raises the
client-unavailable error when it is unset; that raise happens inside the
retried function, so the wrapper treats it like any other exception. -/
def _call_model (client : Option Unit)
    (remote : List ChatMessage → Nat → Except String RawCompletion)
    (messages : List ChatMessage) : RetryTrace RawCompletion :=
  retryRun
    (fun attempt =>
      match client with
      | Option.none => Except.error "Hugging Face client is not initialized; missing API token"
      | some _ => remote messages attempt)
    RETRY_DELAY 0 RETRIES

/-- Result envelope returned by the handlers.  Absent dict keys are modelled
by `Option.none` in the optional fields. -/
structure Envelope where
  response : String
  success : Bool
  redirected : Option Bool
  error : Option String
deriving DecidableEq

/-- Stripping as Python `str.strip()`: leading and trailing whitespace
removed. -/
def pyStrip (s : String) : String :=
  let ws : Char → Bool := fun c =>
    (c == ' ') || (c == '\t') || (c == '\n') || (c == '\x0d') || (c == '\x0b') || (c == '\x0c')
  String.mk (((s.data.dropWhile ws).reverse.dropWhile ws).reverse)

/-- Embedding of `get_chatbot_response_with_products`: assemble the messages,
run the retried model call, then map the outcome to an envelope exactly as the
source does (empty-choices fallback, on-topic redirect, verbatim success, or
the generic apology on an exception). -/
def get_chatbot_response_with_products (client : Option Unit)
    (remote : List ChatMessage → Nat → Except String RawCompletion)
    (user_message : String) (chat_history : Option (List ChatMessage))
    (products : Option (List RawProduct)) : Envelope :=
  match (_call_model client remote (_build_messages user_message chat_history products)).result with
  | Except.error e =>
    { response := "Sorry, an error occurred. Please try again later.",
      success := false, redirected := Option.none, error := some e }
  | Except.ok RawCompletion.noChoices =>
    { response := "Sorry, I couldn\x27t generate a response. Please try again.",
      success := false, redirected := Option.none, error := some "No response from API" }
  | Except.ok (RawCompletion.withChoices []) =>
    { response := "Sorry, I couldn\x27t generate a response. Please try again.",
      success := false, redirected := Option.none, error := some "No response from API" }
  | Except.ok (RawCompletion.withChoices (c :: _)) =>
    if !(_is_store_related (some user_message) || _is_store_related (some (pyStrip c))) then
      { response := REDIRECT_MESSAGE, success := true, redirected := some true, error := Option.none }
    else
      { response := pyStrip c, success := true, redirected := Option.none, error := Option.none }

/-- Embedding of `get_chatbot_response`: identical to the products variant but
assembling the messages without a product list. -/
def get_chatbot_response (client : Option Unit)
    (remote : List ChatMessage → Nat → Except String RawCompletion)
    (user_message : String) (chat_history : Option (List ChatMessage)) : Envelope :=
  match (_call_model client remote (_build_messages user_message chat_history Option.none)).result with
  | Except.error e =>
    { response := "Sorry, an error occurred. Please try again later.",
      success := false, redirected := Option.none, error := some e }
  | Except.ok RawCompletion.noChoices =>
    { response := "Sorry, I couldn\x27t generate a response. Please try again.",
      success := false, redirected := Option.none, error := some "No response from API" }
  | Except.ok (RawCompletion.withChoices []) =>
    { response := "Sorry, I couldn\x27t generate a response. Please try again.",
      success := false, redirected := Option.none, error := some "No response from API" }
  | Except.ok (RawCompletion.withChoices (c :: _)) =>
    if !(_is_store_related (some user_message) || _is_store_related (some (pyStrip c))) then
      { response := REDIRECT_MESSAGE, success := true, redirected := some true, error := Option.none }
    else
      { response := pyStrip c, success := true, redirected := Option.none, error := Option.none }

/-! Theorems. -/

/-- Helper: a record with no price key gets price 0, whether or not the rest
of the record coerces. -/
theorem sanitizeOne_price_of_missing (r : RawProduct)
    (hp : r.lookup "price" = Option.none) : (sanitizeOne r).price = 0 := by
  have hcp : coercePrice r = Except.ok ((0 : Int) : ℚ) := by
    unfold coercePrice pyGet
    rw [hp]
    rfl
  unfold sanitizeOne
  rw [hcp]
  cases hs : coerceStock r with
  | error e => rfl
  | ok s => exact Int.cast_zero

/-- Helper: a record with no stock key gets stock 0, whether or not the rest
of the record coerces. -/
theorem sanitizeOne_stock_of_missing (r : RawProduct)
    (hs : r.lookup "stock" = Option.none) : (sanitizeOne r).stock = 0 := by
  have hcs : coerceStock r = Except.ok (0 : Int) := by
    unfold coerceStock pyGet
    rw [hs]
    rfl
  unfold sanitizeOne
  rw [hcs]
  cases hp : coercePrice r with
  | error e => rfl
  | ok q => rfl

/-- C1 counterexample: with the client unset, the model invocation at a
concrete message list makes three attempts and three backoff sleeps before
surfacing the client-unavailable error, refuting that it fails immediately
with no retry attempts and no sleeps. -/
theorem C1_counterexample :
    (_call_model Option.none (fun _ _ => Except.error "boom") []).attempts = 3
    ∧ (_call_model Option.none (fun _ _ => Except.error "boom") []).sleeps.length = 3
    ∧ (_call_model Option.none (fun _ _ => Except.error "boom") []).result
        = Except.error "Hugging Face client is not initialized; missing API token" :=
  ⟨rfl, rfl, rfl⟩

/-- C1 amended: if the remote client was never configured, every invocation
still fails with the client-unavailable error, but only after RETRIES + 1 = 3
attempts, with linear backoff sleeps of 0.7, 1.4 and 2.1 seconds, because the
availability check raises inside the retried function. -/
theorem C1_amended_retried :
    ∀ (remote : List ChatMessage → Nat → Except String RawCompletion)
      (messages : List ChatMessage),
    (_call_model Option.none remote messages).result
        = Except.error "Hugging Face client is not initialized; missing API token"
    ∧ (_call_model Option.none remote messages).attempts = RETRIES + 1
    ∧ (_call_model Option.none remote messages).sleeps
        = [RETRY_DELAY * ((1 : Nat) : ℚ), RETRY_DELAY * ((2 : Nat) : ℚ), RETRY_DELAY * ((3 : Nat) : ℚ)]
    ∧ RETRY_DELAY * ((1 : Nat) : ℚ) = 7 / 10
    ∧ RETRY_DELAY * ((2 : Nat) : ℚ) = 7 / 5
    ∧ RETRY_DELAY * ((3 : Nat) : ℚ) = 21 / 10 := by
  intro remote messages
  refine ⟨rfl, rfl, rfl, ?_, ?_, ?_⟩ <;> norm_num [RETRY_DELAY]

/-- C2: the on-topic classifier is false on empty and absent text as claimed,
but it is also false on the claimed positive example, because the pattern in
the source is built from a doubled backslash and therefore only matches a
keyword delimited by a literal backslash-b text, as the last conjunct shows. -/
theorem C2_code_bug_eval :
    _is_store_related Option.none = false
    ∧ _is_store_related (some "") = false
    ∧ _is_store_related (some "What is the price of this item?") = false
    ∧ _is_store_related (some "ask \x5cbprice\x5cb now") = true :=
  ⟨rfl, rfl, rfl, rfl⟩

/-- C3 counterexample: a completion whose only candidate strips to the empty
string is not mapped to the EmptyResponse envelope; with an off-topic user
message it yields the redirect envelope with success true. -/
theorem C3_counterexample :
    pyStrip "   " = ""
    ∧ (get_chatbot_response_with_products (some ())
        (fun _ _ => Except.ok (RawCompletion.withChoices ["   "])) "hello" Option.none
        Option.none).success = true
    ∧ (get_chatbot_response_with_products (some ())
        (fun _ _ => Except.ok (RawCompletion.withChoices ["   "])) "hello" Option.none
        Option.none).response = REDIRECT_MESSAGE :=
  ⟨rfl, rfl, rfl⟩

/-- C3 amended: the EmptyResponse envelope is returned exactly when the
completion exposes no candidate at all (falsy response, missing or falsy
choices, or an empty choices list); a present first candidate whose text is
empty after stripping instead proceeds through the policy check. -/
theorem C3_amended_empty :
    ∀ client remote u h p,
    ((get_chatbot_response_with_products client remote u h p
        = { response := "Sorry, I couldn\x27t generate a response. Please try again.",
            success := false, redirected := Option.none, error := some "No response from API" })
      ↔ ((_call_model client remote (_build_messages u h p)).result
            = Except.ok RawCompletion.noChoices
          ∨ (_call_model client remote (_build_messages u h p)).result
            = Except.ok (RawCompletion.withChoices [])))
    ∧ (∀ (c : String) (rest : List String),
        (_call_model client remote (_build_messages u h p)).result
            = Except.ok (RawCompletion.withChoices (c :: rest))
        → get_chatbot_response_with_products client remote u h p
            = if !(_is_store_related (some u) || _is_store_related (some (pyStrip c))) then
                { response := REDIRECT_MESSAGE, success := true, redirected := some true,
                  error := Option.none }
              else
                { response := pyStrip c, success := true, redirected := Option.none,
                  error := Option.none })
    ∧ ((get_chatbot_response client remote u h
        = { response := "Sorry, I couldn\x27t generate a response. Please try again.",
            success := false, redirected := Option.none, error := some "No response from API" })
      ↔ ((_call_model client remote (_build_messages u h Option.none)).result
            = Except.ok RawCompletion.noChoices
          ∨ (_call_model client remote (_build_messages u h Option.none)).result
            = Except.ok (RawCompletion.withChoices [])))
    ∧ (∀ (c : String) (rest : List String),
        (_call_model client remote (_build_messages u h Option.none)).result
            = Except.ok (RawCompletion.withChoices (c :: rest))
        → get_chatbot_response client remote u h
            = if !(_is_store_related (some u) || _is_store_related (some (pyStrip c))) then
                { response := REDIRECT_MESSAGE, success := true, redirected := some true,
                  error := Option.none }
              else
                { response := pyStrip c, success := true, redirected := Option.none,
                  error := Option.none }) := by
  intro client remote u h p
  refine ⟨?_, ?_, ?_, ?_⟩
  · unfold get_chatbot_response_with_products
    cases hres : (_call_model client remote (_build_messages u h p)).result with
    | error e =>
      constructor
      · intro heq
        have hr : ("Sorry, an error occurred. Please try again later." : String)
            = "Sorry, I couldn\x27t generate a response. Please try again." :=
          congrArg Envelope.response heq
        exact absurd hr (by decide)
      · intro hor
        rcases hor with hor | hor <;> exact Except.noConfusion hor
    | ok comp =>
      cases comp with
      | noChoices => exact ⟨fun _ => Or.inl rfl, fun _ => rfl⟩
      | withChoices cs =>
        cases cs with
        | nil => exact ⟨fun _ => Or.inr rfl, fun _ => rfl⟩
        | cons c rest =>
          constructor
          · intro heq
            exfalso
            have hs := congrArg Envelope.success heq
            rcases Bool.eq_false_or_eq_true
                (!(_is_store_related (some u) || _is_store_related (some (pyStrip c)))) with
              hb | hb <;> simp [hb] at hs
          · intro hor
            rcases hor with hor | hor <;> simp at hor
  · intro c rest hres
    unfold get_chatbot_response_with_products
    rw [hres]
  · unfold get_chatbot_response
    cases hres : (_call_model client remote (_build_messages u h Option.none)).result with
    | error e =>
      constructor
      · intro heq
        have hr : ("Sorry, an error occurred. Please try again later." : String)
            = "Sorry, I couldn\x27t generate a response. Please try again." :=
          congrArg Envelope.response heq
        exact absurd hr (by decide)
      · intro hor
        rcases hor with hor | hor <;> exact Except.noConfusion hor
    | ok comp =>
      cases comp with
      | noChoices => exact ⟨fun _ => Or.inl rfl, fun _ => rfl⟩
      | withChoices cs =>
        cases cs with
        | nil => exact ⟨fun _ => Or.inr rfl, fun _ => rfl⟩
        | cons c rest =>
          constructor
          · intro heq
            exfalso
            have hs := congrArg Envelope.success heq
            rcases Bool.eq_false_or_eq_true
                (!(_is_store_related (some u) || _is_store_related (some (pyStrip c)))) with
              hb | hb <;> simp [hb] at hs
          · intro hor
            rcases hor with hor | hor <;> simp at hor
  · intro c rest hres
    unfold get_chatbot_response
    rw [hres]

/-- C3 witness: a successful call returning no choices produces the
EmptyResponse envelope in both handlers, and a whitespace-only first candidate
instead goes through the policy check and yields the redirect envelope. -/
theorem C3_witness :
    get_chatbot_response_with_products (some ()) (fun _ _ => Except.ok RawCompletion.noChoices)
        "hi" Option.none Option.none
      = { response := "Sorry, I couldn\x27t generate a response. Please try again.",
          success := false, redirected := Option.none, error := some "No response from API" }
    ∧ get_chatbot_response (some ()) (fun _ _ => Except.ok RawCompletion.noChoices) "hi" Option.none
      = { response := "Sorry, I couldn\x27t generate a response. Please try again.",
          success := false, redirected := Option.none, error := some "No response from API" }
    ∧ get_chatbot_response_with_products (some ())
        (fun _ _ => Except.ok (RawCompletion.withChoices ["   "])) "hello" Option.none Option.none
      = { response := REDIRECT_MESSAGE, success := true, redirected := some true,
          error := Option.none } :=
  ⟨(C3_amended_empty (some ()) (fun _ _ => Except.ok RawCompletion.noChoices) "hi" Option.none
      Option.none).1.mpr (Or.inl rfl),
   (C3_amended_empty (some ()) (fun _ _ => Except.ok RawCompletion.noChoices) "hi" Option.none
      Option.none).2.2.1.mpr (Or.inl rfl),
   ((C3_amended_empty (some ()) (fun _ _ => Except.ok (RawCompletion.withChoices ["   "])) "hello"
      Option.none Option.none).2.1 "   " [] rfl).trans (by rfl)⟩

/-- C4 counterexample: a raw record with a negative numeric price and stock is
sanitized to an entry carrying those negative values, refuting that sanitized
entries never carry a negative price or stock. -/
theorem C4_counterexample :
    _sanitize_products (some [[("name", PyVal.str "X"), ("description", PyVal.str "d"),
        ("price", PyVal.float (-5)), ("stock", PyVal.int (-3))]])
      = [{ name := "X", description := "d", price := -5, stock := -3 }]
    ∧ ¬(0 ≤ (-5 : ℚ)) ∧ ¬(0 ≤ (-3 : Int)) :=
  ⟨rfl, by norm_num, by norm_num⟩

/-- C4 amended: price defaults to 0.0 and stock to 0 on missing input, and an
unparsable record degrades to the zero-valued placeholder, but negative
numeric raw values are carried through unchanged, so a sanitized entry can
hold a negative price or stock. -/
theorem C4_amended_defaults :
    (∀ r : RawProduct, r.lookup "price" = Option.none → (sanitizeOne r).price = 0)
    ∧ (∀ r : RawProduct, r.lookup "stock" = Option.none → (sanitizeOne r).stock = 0)
    ∧ (sanitizeOne [("price", PyVal.str "oops")]).price = 0
    ∧ _sanitize_products (some [[("price", PyVal.float (-2)), ("stock", PyVal.int (-7))]])
        = [{ name := "N/A", description := "", price := -2, stock := -7 }] :=
  ⟨fun r hp => sanitizeOne_price_of_missing r hp,
   fun r hs => sanitizeOne_stock_of_missing r hs, rfl, rfl⟩

/-- C4 witness: a record with neither a price nor a stock key sanitizes to
price 0 and stock 0. -/
theorem C4_witness :
    (sanitizeOne [("k", PyVal.int 1)]).price = 0
    ∧ (sanitizeOne [("k", PyVal.int 1)]).stock = 0 :=
  ⟨C4_amended_defaults.1 [("k", PyVal.int 1)] rfl,
   C4_amended_defaults.2.1 [("k", PyVal.int 1)] rfl⟩

/-- C5: whenever the retried remote call ends in an exception, each handler
returns an envelope with success false whose response is the fixed generic
apology, independent of the exception text, which is captured only in the
error field; no exception escapes the handler, which is total. -/
theorem C5_no_raw_fault :
    ∀ client remote u h p (e : String),
    ((_call_model client remote (_build_messages u h p)).result = Except.error e
      → get_chatbot_response_with_products client remote u h p
          = { response := "Sorry, an error occurred. Please try again later.",
              success := false, redirected := Option.none, error := some e })
    ∧ ((_call_model client remote (_build_messages u h Option.none)).result = Except.error e
      → get_chatbot_response client remote u h
          = { response := "Sorry, an error occurred. Please try again later.",
              success := false, redirected := Option.none, error := some e }) := by
  intro client remote u h p e
  constructor
  · intro hres
    unfold get_chatbot_response_with_products
    rw [hres]
  · intro hres
    unfold get_chatbot_response
    rw [hres]

/-- C5 witness: with the client unset, the retried call fails with the
client-unavailable message and the handler maps it to the apology envelope. -/
theorem C5_witness :
    get_chatbot_response_with_products Option.none
        (fun _ _ => Except.ok RawCompletion.noChoices) "hi" Option.none Option.none
      = { response := "Sorry, an error occurred. Please try again later.",
          success := false, redirected := Option.none,
          error := some "Hugging Face client is not initialized; missing API token" } :=
  (C5_no_raw_fault Option.none (fun _ _ => Except.ok RawCompletion.noChoices) "hi" Option.none
      Option.none "Hugging Face client is not initialized; missing API token").1 rfl

/-- C6: the assembled message list is the system message, then the last
MAX_HISTORY entries of the history as a suffix in original order, then the
user message as a user-role entry; histories of length at most MAX_HISTORY
are kept whole. -/
theorem C6_history_trim :
    ∀ (u : String) (h : List ChatMessage) (p : Option (List RawProduct)),
    _build_messages u (some h) p
        = { role := "system", content := build_system_message p }
            :: (h.drop (h.length - MAX_HISTORY) ++ [{ role := "user", content := u }])
    ∧ h.take (h.length - MAX_HISTORY) ++ h.drop (h.length - MAX_HISTORY) = h
    ∧ (MAX_HISTORY < h.length → (h.drop (h.length - MAX_HISTORY)).length = MAX_HISTORY)
    ∧ (h.length ≤ MAX_HISTORY → h.drop (h.length - MAX_HISTORY) = h) := by
  intro u h p
  refine ⟨rfl, List.take_append_drop _ _, ?_, ?_⟩
  · intro hlt
    rw [List.length_drop]
    exact Nat.sub_sub_self (le_of_lt hlt)
  · intro hle
    rw [Nat.sub_eq_zero_of_le hle]
    exact List.drop_zero _

/-- C6 witness: a 13-entry history keeps exactly 12 entries and a 5-entry
history is kept whole. -/
theorem C6_witness :
    ((List.replicate 13 ({ role := "assistant", content := "m" } : ChatMessage)).drop
        ((List.replicate 13 ({ role := "assistant", content := "m" } : ChatMessage)).length
          - MAX_HISTORY)).length = MAX_HISTORY
    ∧ (List.replicate 5 ({ role := "assistant", content := "m" } : ChatMessage)).drop
        ((List.replicate 5 ({ role := "assistant", content := "m" } : ChatMessage)).length
          - MAX_HISTORY)
        = List.replicate 5 ({ role := "assistant", content := "m" } : ChatMessage) :=
  ⟨(C6_history_trim "q" (List.replicate 13 { role := "assistant", content := "m" })
      Option.none).2.2.1 (by decide),
   (C6_history_trim "q" (List.replicate 5 { role := "assistant", content := "m" })
      Option.none).2.2.2 (by decide)⟩

/-- C7: when the call succeeds with at least one candidate and neither the
user message nor the stripped candidate text is classified as store related,
the handler returns exactly the redirect envelope with success true and
redirected true, discarding the candidate text. -/
theorem C7_redirect :
    ∀ client remote u h p (c : String) (rest : List String),
    (_call_model client remote (_build_messages u h p)).result
        = Except.ok (RawCompletion.withChoices (c :: rest))
    → _is_store_related (some u) = false
    → _is_store_related (some (pyStrip c)) = false
    → get_chatbot_response_with_products client remote u h p
        = { response := REDIRECT_MESSAGE, success := true, redirected := some true,
            error := Option.none } := by
  intro client remote u h p c rest hres hu hc
  unfold get_chatbot_response_with_products
  rw [hres]
  simp [hu, hc]

/-- C7 witness: an off-topic user message and an off-topic model reply yield
the redirect envelope. -/
theorem C7_witness :
    get_chatbot_response_with_products (some ())
        (fun _ _ => Except.ok (RawCompletion.withChoices ["hi there"])) "hello" Option.none
        Option.none
      = { response := REDIRECT_MESSAGE, success := true, redirected := some true,
          error := Option.none } :=
  C7_redirect (some ()) (fun _ _ => Except.ok (RawCompletion.withChoices ["hi there"])) "hello"
    Option.none Option.none "hi there" [] rfl rfl rfl

/-- C8: the sanitizer emits exactly one entry per input record among the first
PRODUCT_LIMIT records; a record with no price key gets price 0 and one with no
stock key gets stock 0; a record whose stock is a non-numeric string becomes
the all-defaults placeholder rather than being dropped. -/
theorem C8_per_record :
    (∀ ps : List RawProduct,
      (_sanitize_products (some ps)).length = min PRODUCT_LIMIT ps.length)
    ∧ (∀ r : RawProduct, r.lookup "price" = Option.none → (sanitizeOne r).price = 0)
    ∧ (∀ r : RawProduct, r.lookup "stock" = Option.none → (sanitizeOne r).stock = 0)
    ∧ _sanitize_products (some [[("name", PyVal.str "Gadget"), ("stock", PyVal.str "many")]])
        = [{ name := "N/A", description := "", price := 0, stock := 0 }] := by
  refine ⟨?_, fun r hp => sanitizeOne_price_of_missing r hp,
    fun r hs => sanitizeOne_stock_of_missing r hs, rfl⟩
  intro ps
  unfold _sanitize_products
  cases ps with
  | nil => simp
  | cons a as => simp [List.length_take]

/-- C8 witness: a record with neither key yields price 0 and stock 0. -/
theorem C8_witness :
    (sanitizeOne [("name", PyVal.str "W")]).price = 0
    ∧ (sanitizeOne [("name", PyVal.str "W")]).stock = 0 :=
  ⟨C8_per_record.2.1 [("name", PyVal.str "W")] rfl,
   C8_per_record.2.2.1 [("name", PyVal.str "W")] rfl⟩

/-- C9: the system message heads the assembled list; it renders at most
PRODUCT_LIMIT product lines; when the sanitized list is non-empty the count in
the block header equals the number of lines rendered, and when it is empty no
product block is appended at all. -/
theorem C9_product_block :
    ∀ (products : Option (List RawProduct)),
    ((_sanitize_products products).map renderProductLine).length ≤ PRODUCT_LIMIT
    ∧ (∀ (u : String) (h : Option (List ChatMessage)),
        (_build_messages u h products).head?
          = some { role := "system", content := build_system_message products })
    ∧ (_sanitize_products products ≠ [] →
        build_system_message products
          = system_instruction
              ++ ("\n\nAvailable products (first "
                  ++ toString ((_sanitize_products products).map renderProductLine).length
                  ++ "):\n")
              ++ String.join ((_sanitize_products products).map renderProductLine))
    ∧ (_sanitize_products products = [] → build_system_message products = system_instruction) := by
  intro products
  refine ⟨?_, fun u h => rfl, ?_, ?_⟩
  · rw [List.length_map]
    unfold _sanitize_products
    cases products with
    | none => simp
    | some ps =>
      cases ps with
      | nil => simp
      | cons a as =>
        simp only [List.isEmpty_cons, Bool.false_eq_true, if_false, List.length_map,
          List.length_take]
        omega
  · intro hne
    unfold build_system_message
    rw [List.length_map]
    rcases hsp : _sanitize_products products with _ | ⟨a, as⟩
    · exact absurd hsp hne
    · simp
  · intro he
    unfold build_system_message
    rw [he]
    rfl

/-- C9 witness: a one-product list gets a counted block and an absent product
list leaves the instruction unchanged. -/
theorem C9_witness :
    build_system_message (some [[("name", PyVal.str "A")]])
      = system_instruction
          ++ ("\n\nAvailable products (first "
              ++ toString ((_sanitize_products (some [[("name", PyVal.str "A")]])).map
                  renderProductLine).length
              ++ "):\n")
          ++ String.join ((_sanitize_products (some [[("name", PyVal.str "A")]])).map
              renderProductLine)
    ∧ build_system_message Option.none = system_instruction :=
  ⟨(C9_product_block (some [[("name", PyVal.str "A")]])).2.2.1 (by decide),
   (C9_product_block Option.none).2.2.2 rfl⟩

/-- C10 counterexample: when the exception carried an empty message, the
failed envelope holds an error field equal to the empty string, refuting that
every failed envelope carries a non-empty error. -/
theorem C10_counterexample :
    (get_chatbot_response_with_products (some ()) (fun _ _ => Except.error "") "hi" Option.none
        Option.none).success = false
    ∧ (get_chatbot_response_with_products (some ()) (fun _ _ => Except.error "") "hi" Option.none
        Option.none).error = some "" :=
  ⟨rfl, rfl⟩

/-- C10 amended: in both handlers the error field is absent exactly when the
envelope has success true; every failed envelope carries an error field, but
its text is the exception message and may be empty. -/
theorem C10_amended_error_iff :
    ∀ client remote u h p,
    ((get_chatbot_response_with_products client remote u h p).error = Option.none
      ↔ (get_chatbot_response_with_products client remote u h p).success = true)
    ∧ ((get_chatbot_response client remote u h).error = Option.none
      ↔ (get_chatbot_response client remote u h).success = true) := by
  intro client remote u h p
  constructor
  · unfold get_chatbot_response_with_products
    cases hres : (_call_model client remote (_build_messages u h p)).result with
    | error e => simp
    | ok comp =>
      cases comp with
      | noChoices => simp
      | withChoices cs =>
        cases cs with
        | nil => simp
        | cons c rest =>
          cases hA : _is_store_related (some u) <;>
            cases hB : _is_store_related (some (pyStrip c)) <;> simp [hA, hB]
  · unfold get_chatbot_response
    cases hres : (_call_model client remote (_build_messages u h Option.none)).result with
    | error e => simp
    | ok comp =>
      cases comp with
      | noChoices => simp
      | withChoices cs =>
        cases cs with
        | nil => simp
        | cons c rest =>
          cases hA : _is_store_related (some u) <;>
            cases hB : _is_store_related (some (pyStrip c)) <;> simp [hA, hB]

end Chatbot
